import Mathlib

/-!
Verification of the data-refresh coordination logic of
`openverse_catalog/dags/data_refresh/data_refresh_task_factory.py`.

The Python module builds an Airflow TaskGroup that
  1. waits (via a `SingleRunExternalDAGsSensor`) until no sibling data
     refresh DAG is running,
  2. for each action in `{ingest_upstream, point_alias}` POSTs a trigger
     request to the ingestion server (`SimpleHttpOperator`) and then polls
     a status endpoint (`HttpSensor`) until the remote job completes.

This file shallowly embeds that module: pure helpers
(`response_filter_data_refresh`, `response_check_wait_for_completion`,
Python's `urllib.parse.urlparse` path extraction) become Lean functions;
the task-group construction becomes a value describing the built tasks and
dependency edges; the Airflow substrate (sensor poke loop, scheduler
dependency semantics) is given an explicit small-step/trace model.
-/

namespace DataRefreshFactory

/-! ### Poll response bodies and the completion check

`response_check_wait_for_completion` receives `response.json()`, a dict.
The only keys it reads are `"active"`, `"error"` and `"percent_completed"`;
we model the body as a record of optional fields (`none` = key absent,
which makes the Python subscript raise `KeyError`). -/

/-- A poll response body: the three fields the check may read.
`none` models an absent key. -/
structure PollBody where
  active : Option Bool
  error : Option Bool
  percent_completed : Option Int
  deriving DecidableEq, Repr

/-- An exception escaping `response_check_wait_for_completion`:
either a Python `KeyError` from a dict subscript on a missing key, or the
`AirflowException` the function raises itself. -/
inductive CheckError where
  | keyError (key : String)
  | airflowException (msg : String)
  deriving DecidableEq, Repr

/-- Python dict subscript `data[k]`: raises `KeyError k` when absent. -/
def getKey {α : Type} (k : String) (v : Option α) : Except CheckError α :=
  match v with
  | some a => Except.ok a
  | none => Except.error (CheckError.keyError k)

/-- `response_check_wait_for_completion` (lines 81–99 of the source).

```python
def response_check_wait_for_completion(response):
    data = response.json()
    if data["active"]:
        return False
    if data["error"]:
        raise AirflowException("Error triggering data refresh.")
    logger.info(f"... {data['percent_completed']}% ...")
    return True
```

`Except.ok false` models `return False` (poke again), `Except.ok true`
models `return True` (done); `Except.error e` models a raised exception.
Note the f-string in the `logger.info` call subscripts
`data['percent_completed']`, so a missing `percent_completed` key raises a
`KeyError` on the success path. -/
def response_check_wait_for_completion (data : PollBody) : Except CheckError Bool := do
  let active ← getKey "active" data.active
  if active then
    return false
  let err ← getKey "error" data.error
  if err then
    throw (CheckError.airflowException "Error triggering data refresh.")
  let _pct ← getKey "percent_completed" data.percent_completed
  return true

/-- The spec's `PollOutcome` variant. -/
inductive PollOutcome where
  | Running
  | Succeeded
  | Failed (reason : CheckError)
  deriving DecidableEq, Repr

/-- How the Airflow sensor machinery interprets the check's result:
`False` = still running, poke again; `True` = succeeded;
a raised exception fails the task. -/
def pollOutcome (data : PollBody) : PollOutcome :=
  match response_check_wait_for_completion data with
  | Except.ok false => PollOutcome.Running
  | Except.ok true => PollOutcome.Succeeded
  | Except.error e => PollOutcome.Failed e

end DataRefreshFactory

namespace DataRefreshFactory

/-- C1: For every well-formed poll response body (all three fields
present), the completion predicate yields Running whenever `active` is
true regardless of `error` and `percent_completed`; yields Failed when
`active` is false and `error` is true; and yields Succeeded when `active`
is false and `error` is false. -/
theorem completion_predicate_decision_table (e : Bool) (p q r : Int) :
    pollOutcome ⟨some true, some e, some p⟩ = PollOutcome.Running ∧
    pollOutcome ⟨some false, some true, some q⟩ =
      PollOutcome.Failed
        (CheckError.airflowException "Error triggering data refresh.") ∧
    pollOutcome ⟨some false, some false, some r⟩ = PollOutcome.Succeeded := by
  refine ⟨rfl, rfl, rfl⟩

/-- C1, witness: the decision table at `error = true` and
`percent_completed = 40`. -/
theorem completion_predicate_decision_table_witness :
    pollOutcome ⟨some true, some true, some 40⟩ = PollOutcome.Running ∧
    pollOutcome ⟨some false, some true, some 40⟩ =
      PollOutcome.Failed
        (CheckError.airflowException "Error triggering data refresh.") ∧
    pollOutcome ⟨some false, some false, some 40⟩ = PollOutcome.Succeeded :=
  completion_predicate_decision_table true 40 40 40

/-- C7 counterexample: a body that is malformed by missing the `error`
field (and `percent_completed`) but has `active = true` makes the
completion predicate yield Running — contradicting the claim that every
body missing `active` or `error` yields a Failed outcome and never
Running. -/
theorem malformed_missing_error_yields_running :
    (PollBody.mk (some true) none none).error = none ∧
    pollOutcome ⟨some true, none, none⟩ = PollOutcome.Running := by
  exact ⟨rfl, rfl⟩

/-- C7 amended: a body missing `active` yields Failed (`KeyError
"active"`); a body with `active = false` that is missing `error` yields
Failed (`KeyError "error"`); the two reasons are distinct; in neither
case is Running produced. (When `active` is true, the check returns
Running before ever reading `error`, so that case is excluded from the
amended claim.) -/
theorem malformed_body_failed_outcomes (b c : PollBody)
    (hb : b.active = none)
    (hc₁ : c.active = some false) (hc₂ : c.error = none) :
    pollOutcome b = PollOutcome.Failed (CheckError.keyError "active") ∧
    pollOutcome c = PollOutcome.Failed (CheckError.keyError "error") ∧
    CheckError.keyError "active" ≠ CheckError.keyError "error" ∧
    pollOutcome b ≠ PollOutcome.Running ∧
    pollOutcome c ≠ PollOutcome.Running := by
  obtain ⟨ba, be, bp⟩ := b
  obtain ⟨ca, ce, cp⟩ := c
  simp only at hb hc₁ hc₂
  subst hb hc₁ hc₂
  have h1 : pollOutcome ⟨none, be, bp⟩ =
      PollOutcome.Failed (CheckError.keyError "active") := rfl
  have h2 : pollOutcome ⟨some false, none, cp⟩ =
      PollOutcome.Failed (CheckError.keyError "error") := rfl
  refine ⟨h1, h2, by decide, ?_, ?_⟩ <;> simp [h1, h2]

/-- C7 amended, witness. -/
theorem malformed_body_failed_outcomes_witness :
    pollOutcome ⟨none, some true, some 7⟩ =
      PollOutcome.Failed (CheckError.keyError "active") ∧
    pollOutcome ⟨some false, none, some 7⟩ =
      PollOutcome.Failed (CheckError.keyError "error") ∧
    CheckError.keyError "active" ≠ CheckError.keyError "error" ∧
    pollOutcome ⟨none, some true, some 7⟩ ≠ PollOutcome.Running ∧
    pollOutcome ⟨some false, none, some 7⟩ ≠ PollOutcome.Running :=
  malformed_body_failed_outcomes ⟨none, some true, some 7⟩
    ⟨some false, none, some 7⟩ rfl rfl rfl

/-- C10: success requires `percent_completed` to be present — with
`active = false`, `error = false` but no `percent_completed` key the check
raises (`KeyError "percent_completed"`, failing the run) instead of
returning Succeeded; conversely, when `active` is true the check returns
Running without reading `error` or `percent_completed`, so those keys may
be absent. -/
theorem success_requires_percent_completed (e : Bool) (p : Int) :
    pollOutcome ⟨some false, some false, none⟩ =
      PollOutcome.Failed (CheckError.keyError "percent_completed") ∧
    pollOutcome ⟨some false, some false, none⟩ ≠ PollOutcome.Succeeded ∧
    pollOutcome ⟨some true, none, none⟩ = PollOutcome.Running ∧
    pollOutcome ⟨some true, some e, none⟩ = PollOutcome.Running ∧
    pollOutcome ⟨some true, none, some p⟩ = PollOutcome.Running := by
  refine ⟨rfl, by decide, rfl, rfl, rfl⟩

/-- C10, witness: instance at `error = false`, `percent_completed = 40`. -/
theorem success_requires_percent_completed_witness :
    pollOutcome ⟨some false, some false, none⟩ =
      PollOutcome.Failed (CheckError.keyError "percent_completed") ∧
    pollOutcome ⟨some false, some false, none⟩ ≠ PollOutcome.Succeeded ∧
    pollOutcome ⟨some true, none, none⟩ = PollOutcome.Running ∧
    pollOutcome ⟨some true, some false, none⟩ = PollOutcome.Running ∧
    pollOutcome ⟨some true, none, some 40⟩ = PollOutcome.Running :=
  success_requires_percent_completed false 40

/-! ### `urllib.parse.urlparse` and `response_filter_data_refresh`

`response_filter_data_refresh` returns `urlparse(status_check_url).path`.
We embed the path-relevant core of CPython's `urllib.parse` (3.10 line:
`urlsplit` scheme/netloc/fragment/query splitting, then `urlparse`'s
params split), operating on `List Char`.  The WHATWG byte-stripping
preprocessing added for security fixes is the identity on the URLs the
theorems quantify over (no whitespace/control characters), so it is not
modelled. -/

/-- `s.find(c)`-then-split: returns the characters before the first
occurrence of `c`, and `some` of the characters after it (or `none` when
`c` does not occur). -/
def splitAtFirst (c : Char) : List Char → List Char × Option (List Char)
  | [] => ([], none)
  | x :: xs =>
    if x = c then ([], some xs)
    else
      let r := splitAtFirst c xs
      (x :: r.1, r.2)

/-- Split a list at the first character satisfying `p`: the first
component is the longest p-free first part, the second the remainder
(starting with the first `p` character, if any). Models
`_splitnetloc`'s `min(url.find(c, start) for c in delim)`. -/
def spanUntil (p : Char → Bool) : List Char → List Char × List Char
  | [] => ([], [])
  | x :: xs =>
    if p x then ([], x :: xs)
    else
      let r := spanUntil p xs
      (x :: r.1, r.2)

/-- CPython `scheme_chars`: ASCII letters, digits, and `+`, `-`, `.`. -/
def isSchemeChar (c : Char) : Bool :=
  c.isAlpha || c.isDigit || c == '+' || c == '-' || c == '.'

/-- The scheme-splitting step of `urlsplit`:
`i = url.find(':')`; when `i > 0` and every character of `url[:i]` is in
`scheme_chars`, the scheme is `url[:i].lower()` and the remainder is
`url[i+1:]`; otherwise scheme is empty and the url is unchanged. -/
def splitScheme (url : List Char) : List Char × List Char :=
  let r := splitAtFirst ':' url
  match r.2 with
  | some rest =>
    if r.1 ≠ [] ∧ ∀ c ∈ r.1, isSchemeChar c = true then
      (r.1.map Char.toLower, rest)
    else ([], url)
  | none => ([], url)

/-- The delimiters ending a netloc: `/`, `?`, `#`. -/
def isNetlocDelim (c : Char) : Bool := c == '/' || c == '?' || c == '#'

/-- Result of `urlsplit`. -/
structure SplitResult where
  scheme : List Char
  netloc : List Char
  path : List Char
  query : List Char
  fragment : List Char
  deriving DecidableEq, Repr

/-- The core of CPython `urlsplit` (with `allow_fragments=True`):
scheme split, then netloc when the remainder starts with `//`, then
fragment at the first `#`, then query at the first `?`; the rest is the
path. -/
def urlsplit (url0 : List Char) : SplitResult :=
  let s := splitScheme url0
  let n :=
    if s.2.take 2 = ['/', '/'] then spanUntil isNetlocDelim (s.2.drop 2)
    else ([], s.2)
  let f :=
    match splitAtFirst '#' n.2 with
    | (a, some b) => (a, b)
    | (a, none) => (a, ([] : List Char))
  let q :=
    match splitAtFirst '?' f.1 with
    | (a, some b) => (a, b)
    | (a, none) => (a, ([] : List Char))
  ⟨s.1, n.1, q.1, q.2, f.2⟩

/-- CPython `uses_params`: the schemes for which `urlparse` splits
params off the path. -/
def uses_params : List (List Char) :=
  ["".toList, "ftp".toList, "hdl".toList, "prospero".toList,
   "http".toList, "imap".toList, "https".toList, "shttp".toList,
   "rtsp".toList, "rtspu".toList, "sip".toList, "sips".toList,
   "mms".toList, "sftp".toList, "tel".toList]

/-- Split the characters before/after the last occurrence of `c`. -/
def splitAtLast (c : Char) (l : List Char) : Option (List Char × List Char) :=
  match splitAtFirst c l.reverse with
  | (a, some b) => some (b.reverse, a.reverse)
  | (_, none) => none

/-- CPython `_splitparams`: when the url contains `/`, search for `;`
only from the last `/` on (`url.find(';', url.rfind('/'))`); since `;`
and `/` differ, that is a search within the last segment. Only invoked
by `urlparse` when `;` occurs in the path. -/
def splitparams (url : List Char) : List Char × List Char :=
  match splitAtLast '/' url with
  | some pre_seg =>
    match splitAtFirst ';' pre_seg.2 with
    | (a, some b) => (pre_seg.1 ++ '/' :: a, b)
    | (_, none) => (url, [])
  | none =>
    match splitAtFirst ';' url with
    | (a, some b) => (a, b)
    | (_, none) => (url, [])

/-- Result of `urlparse`. -/
structure ParseResult where
  scheme : List Char
  netloc : List Char
  path : List Char
  params : List Char
  query : List Char
  fragment : List Char
  deriving DecidableEq, Repr

/-- CPython `urlparse`: `urlsplit`, then split params off the path when
the scheme uses params and the path contains `;`. -/
def urlparse (url : List Char) : ParseResult :=
  let s := urlsplit url
  if s.scheme ∈ uses_params ∧ ';' ∈ s.path then
    let r := splitparams s.path
    ⟨s.scheme, s.netloc, r.1, r.2, s.query, s.fragment⟩
  else
    ⟨s.scheme, s.netloc, s.path, [], s.query, s.fragment⟩

/-- `response_filter_data_refresh` (lines 71–78 of the source):

```python
status_check_url = response.json()["status_check"]
return urlparse(status_check_url).path
```

The response body is modelled by its optional `status_check` value; a
missing key raises `KeyError` as in Python. -/
def response_filter_data_refresh (body_status_check : Option (List Char)) :
    Except CheckError (List Char) := do
  let status_check_url ← getKey "status_check" body_status_check
  return (urlparse status_check_url).path

theorem splitAtFirst_not_mem {c : Char} {xs : List Char} (h : c ∉ xs) :
    splitAtFirst c xs = (xs, none) := by
  induction xs with
  | nil => rfl
  | cons x xs ih =>
    simp only [List.mem_cons, not_or] at h
    have hx : ¬ x = c := fun hx => h.1 hx.symm
    simp [splitAtFirst, hx, ih h.2]

theorem splitAtFirst_append {c : Char} {xs : List Char} (ys : List Char)
    (h : c ∉ xs) :
    splitAtFirst c (xs ++ c :: ys) = (xs, some ys) := by
  induction xs with
  | nil => simp [splitAtFirst]
  | cons x xs ih =>
    simp only [List.mem_cons, not_or] at h
    have hx : ¬ x = c := fun hx => h.1 hx.symm
    simp [splitAtFirst, hx, ih h.2]

theorem spanUntil_append_cons {p : Char → Bool} {xs : List Char}
    {y : Char} (ys : List Char)
    (h : ∀ x ∈ xs, p x = false) (hy : p y = true) :
    spanUntil p (xs ++ y :: ys) = (xs, y :: ys) := by
  induction xs with
  | nil => simp [spanUntil, hy]
  | cons x xs ih =>
    have hx := h x (List.mem_cons_self x xs)
    simp [spanUntil, hx, ih (fun z hz => h z (List.mem_cons_of_mem x hz))]

theorem splitScheme_valid {scheme : List Char} (rest : List Char)
    (hs1 : scheme ≠ []) (hs2 : ∀ c ∈ scheme, isSchemeChar c = true) :
    splitScheme (scheme ++ ':' :: rest) = (scheme.map Char.toLower, rest) := by
  have hcolon : ':' ∉ scheme := fun hm => absurd (hs2 ':' hm) (by decide)
  have hcond : scheme ≠ [] ∧ ∀ c ∈ scheme, isSchemeChar c = true := ⟨hs1, hs2⟩
  simp only [splitScheme, splitAtFirst_append rest hcolon]
  exact if_pos hcond

theorem splitScheme_slash (rest : List Char) :
    splitScheme ('/' :: rest) = ([], '/' :: rest) := by
  have h : splitAtFirst ':' ('/' :: rest)
      = ('/' :: (splitAtFirst ':' rest).1, (splitAtFirst ':' rest).2) := by
    simp [splitAtFirst]
  unfold splitScheme
  rw [h]
  cases hs : (splitAtFirst ':' rest).2 with
  | none => rfl
  | some r =>
    have hbad : ¬ ('/' :: (splitAtFirst ':' rest).1 ≠ [] ∧
        ∀ c ∈ '/' :: (splitAtFirst ':' rest).1, isSchemeChar c = true) := by
      intro hcond
      have := hcond.2 '/' (List.mem_cons_self _ _)
      simp [isSchemeChar] at this
    exact if_neg hbad

theorem splitAtFirst_hash_path {ptail query fragment : List Char}
    (hp2 : '#' ∉ ptail) (hq : '#' ∉ query) :
    splitAtFirst '#' ('/' :: (ptail ++ '?' :: (query ++ '#' :: fragment)))
      = ('/' :: (ptail ++ '?' :: query), some fragment) := by
  have e : '/' :: (ptail ++ '?' :: (query ++ '#' :: fragment))
      = ('/' :: (ptail ++ '?' :: query)) ++ '#' :: fragment := by simp
  have hmem : '#' ∉ '/' :: (ptail ++ '?' :: query) := by
    simp only [List.mem_cons, List.mem_append, not_or]
    exact ⟨by decide, hp2, by decide, hq⟩
  rw [e]
  exact splitAtFirst_append fragment hmem

theorem splitAtFirst_question_path {ptail query : List Char}
    (hp1 : '?' ∉ ptail) :
    splitAtFirst '?' ('/' :: (ptail ++ '?' :: query))
      = ('/' :: ptail, some query) := by
  have e : '/' :: (ptail ++ '?' :: query) = ('/' :: ptail) ++ '?' :: query := by
    simp
  have hmem : '?' ∉ '/' :: ptail := by
    simp only [List.mem_cons, not_or]
    exact ⟨by decide, hp1⟩
  rw [e]
  exact splitAtFirst_append query hmem

theorem urlsplit_absolute (scheme host ptail query fragment : List Char)
    (hs1 : scheme ≠ []) (hs2 : ∀ c ∈ scheme, isSchemeChar c = true)
    (hh : ∀ c ∈ host, isNetlocDelim c = false)
    (hp1 : '?' ∉ ptail) (hp2 : '#' ∉ ptail) (hq : '#' ∉ query) :
    urlsplit (scheme ++ ':' :: '/' :: '/' ::
        (host ++ '/' :: (ptail ++ '?' :: (query ++ '#' :: fragment)))) =
      ⟨scheme.map Char.toLower, host, '/' :: ptail, query, fragment⟩ := by
  have h1 := splitScheme_valid
    ('/' :: '/' :: (host ++ '/' :: (ptail ++ '?' :: (query ++ '#' :: fragment))))
    hs1 hs2
  have h2 : spanUntil isNetlocDelim
      (host ++ '/' :: (ptail ++ '?' :: (query ++ '#' :: fragment)))
      = (host, '/' :: (ptail ++ '?' :: (query ++ '#' :: fragment))) :=
    spanUntil_append_cons _ hh (by decide)
  simp only [urlsplit, h1, List.take, List.drop, if_pos, h2,
    splitAtFirst_hash_path hp2 hq, splitAtFirst_question_path hp1]

theorem urlsplit_relative (ptail query fragment : List Char)
    (hp0 : ∀ t, ptail ≠ '/' :: t)
    (hp1 : '?' ∉ ptail) (hp2 : '#' ∉ ptail) (hq : '#' ∉ query) :
    urlsplit ('/' :: (ptail ++ '?' :: (query ++ '#' :: fragment))) =
      ⟨[], [], '/' :: ptail, query, fragment⟩ := by
  have h1 := splitScheme_slash (ptail ++ '?' :: (query ++ '#' :: fragment))
  have hcond : ('/' :: (ptail ++ '?' :: (query ++ '#' :: fragment))).take 2
      ≠ ['/', '/'] := by
    cases ptail with
    | nil => simp
    | cons c cs =>
      simp only [List.cons_append, List.take]
      intro h
      have hc : c = '/' := by
        have := List.cons.injEq '/' [c] '/' ['/'] ▸ h
        simpa using h
      exact hp0 cs (by rw [hc])
  simp only [urlsplit, h1, if_neg hcond,
    splitAtFirst_hash_path hp2 hq, splitAtFirst_question_path hp1]

theorem urlsplit_bare (ptail : List Char)
    (hp0 : ∀ t, ptail ≠ '/' :: t)
    (hp1 : '?' ∉ ptail) (hp2 : '#' ∉ ptail) :
    urlsplit ('/' :: ptail) = ⟨[], [], '/' :: ptail, [], []⟩ := by
  have h1 := splitScheme_slash ptail
  have hcond : ('/' :: ptail).take 2 ≠ ['/', '/'] := by
    cases ptail with
    | nil => simp
    | cons c cs =>
      simp only [List.take]
      intro h
      have hc : c = '/' := by simpa using h
      exact hp0 cs (by rw [hc])
  have h3 : splitAtFirst '#' ('/' :: ptail) = ('/' :: ptail, none) := by
    refine splitAtFirst_not_mem ?_
    simp only [List.mem_cons, not_or]
    exact ⟨by decide, hp2⟩
  have h4 : splitAtFirst '?' ('/' :: ptail) = ('/' :: ptail, none) := by
    refine splitAtFirst_not_mem ?_
    simp only [List.mem_cons, not_or]
    exact ⟨by decide, hp1⟩
  simp only [urlsplit, h1, if_neg hcond, h3, h4]

theorem urlparse_path_of_urlsplit {url : List Char} {r : SplitResult}
    (h : urlsplit url = r) (hsemi : ';' ∉ r.path) :
    (urlparse url).path = r.path := by
  have hno : ¬ (r.scheme ∈ uses_params ∧ ';' ∈ r.path) := fun hc => hsemi hc.2
  simp only [urlparse, h, if_neg hno]

/-- C9: for every successful trigger response whose body carries a
`status_check` URL — absolute (`scheme://host/path?query#fragment`) or
relative (`/path?query#fragment`, or a bare `/path`) — the endpoint
retained for the subsequent poll loop is exactly the path component of
that URL, with scheme, host, query and fragment dropped. The
well-formedness hypotheses say the scheme is a nonempty run of scheme
characters, the host contains no path/query/fragment delimiter, the path
is `/`-rooted (not `//`-rooted) and free of `?`, `#`, `;`, and the query
contains no `#`. -/
theorem response_filter_retains_path
    (scheme host ptail query fragment : List Char)
    (hs1 : scheme ≠ []) (hs2 : ∀ c ∈ scheme, isSchemeChar c = true)
    (hh : ∀ c ∈ host, isNetlocDelim c = false)
    (hp0 : ∀ t, ptail ≠ '/' :: t)
    (hp1 : '?' ∉ ptail) (hp2 : '#' ∉ ptail) (hp3 : ';' ∉ ptail)
    (hq : '#' ∉ query) :
    response_filter_data_refresh
        (some (scheme ++ ':' :: '/' :: '/' ::
          (host ++ '/' :: (ptail ++ '?' :: (query ++ '#' :: fragment))))) =
      Except.ok ('/' :: ptail) ∧
    response_filter_data_refresh
        (some ('/' :: (ptail ++ '?' :: (query ++ '#' :: fragment)))) =
      Except.ok ('/' :: ptail) ∧
    response_filter_data_refresh (some ('/' :: ptail)) =
      Except.ok ('/' :: ptail) := by
  have hsemi : ';' ∉ '/' :: ptail := by
    simp only [List.mem_cons, not_or]
    exact ⟨by decide, hp3⟩
  have habs := urlparse_path_of_urlsplit
    (urlsplit_absolute scheme host ptail query fragment hs1 hs2 hh hp1 hp2 hq)
    hsemi
  have hrel := urlparse_path_of_urlsplit
    (urlsplit_relative ptail query fragment hp0 hp1 hp2 hq) hsemi
  have hbare := urlparse_path_of_urlsplit
    (urlsplit_bare ptail hp0 hp1 hp2) hsemi
  refine ⟨?_, ?_, ?_⟩ <;>
    simp [response_filter_data_refresh, getKey, habs, hrel, hbare]

/-- C9, witness: the spec's example URLs.  For
`"https://api.example.com/task/abc123?x=1#frag"` and for the relative
forms `"/task/abc123?x=1#frag"` and `"/task/abc123"`, the retained
endpoint is `"/task/abc123"`. -/
theorem response_filter_retains_path_witness :
    response_filter_data_refresh
        (some ("https".toList ++ ':' :: '/' :: '/' ::
          ("api.example.com".toList ++ '/' :: ("task/abc123".toList ++
            '?' :: ("x=1".toList ++ '#' :: "frag".toList))))) =
      Except.ok ('/' :: "task/abc123".toList) ∧
    response_filter_data_refresh
        (some ('/' :: ("task/abc123".toList ++
          '?' :: ("x=1".toList ++ '#' :: "frag".toList)))) =
      Except.ok ('/' :: "task/abc123".toList) ∧
    response_filter_data_refresh (some ('/' :: "task/abc123".toList)) =
      Except.ok ('/' :: "task/abc123".toList) :=
  response_filter_retains_path "https".toList "api.example.com".toList
    "task/abc123".toList "x=1".toList "frag".toList
    (by decide) (by decide) (by decide)
    (fun t => by simp) (by decide) (by decide) (by decide) (by decide)

/-! ### The task-group factory

`create_data_refresh_task_group` (lines 102–217) builds one
`SingleRunExternalDAGsSensor`, then for each action of `action_data_map`
a `SimpleHttpOperator` (trigger) and an `HttpSensor` (waiter), with
`trigger >> waiter` inside each action group and `chain(*tasks)` linking
the gate to the first group and each group's leaf to the next group's
root. Operators are embedded as records of the constructor arguments
the source passes (plus Airflow's defaults for omitted ones); the
`response_check`/`response_filter` callables are the standalone
functions above. -/

/-- The fields of the `DataRefresh` dataclass
(`data_refresh.data_refresh_types`, outside these sources) that this
module reads: `media_type` and `data_refresh_timeout` (seconds). -/
structure DataRefresh where
  media_type : String
  data_refresh_timeout : Nat
  deriving DecidableEq, Repr

/-- Airflow sensor `mode` argument. -/
inductive SensorMode where
  | poke
  | reschedule
  deriving DecidableEq, Repr

/-- Airflow semantics of `mode`: a `reschedule` sensor exits between
pokes and releases its worker/pool slot while suspended; a `poke`
sensor sleeps in place and keeps the slot (module docstring, lines
28–29: "The Sensor suspends itself and frees up the worker slot"). -/
def SensorMode.releasesSlotWhileSuspended : SensorMode → Bool
  | SensorMode.reschedule => true
  | SensorMode.poke => false

/-- Airflow's `Pool.DEFAULT_POOL_NAME`, used for every operator
constructed without an explicit `pool` argument. -/
def DEFAULT_POOL_NAME : String := "default_pool"

/-- Line 68: the single-slot pool the gate sensor runs in. -/
def DATA_REFRESH_POOL : String := "data_refresh"

/-- Constructor arguments of the `SingleRunExternalDAGsSensor` built at
lines 134–141. -/
structure SingleRunExternalDAGsSensorCfg where
  task_id : String
  external_dag_ids : List String
  check_existence : Bool
  poke_interval : Nat
  mode : SensorMode
  pool : String
  deriving DecidableEq, Repr

/-- Constructor arguments of a `SimpleHttpOperator` built by
`_get_http_operator`; `data` is the post data (whose JSON encoding the
source sends), and the `response_check` lambda of line 162 is
`trigger_response_check` below, the `response_filter` of line 163 is
`response_filter_data_refresh` above. -/
structure SimpleHttpOperatorCfg where
  task_id : String
  http_conn_id : String
  endpoint : String
  method : String
  headers : List (String × String)
  data : List (String × String)
  pool : String
  deriving DecidableEq, Repr

/-- Constructor arguments of an `HttpSensor` built by
`_get_http_sensor`; its `response_check` (line 181) is
`response_check_wait_for_completion` above. -/
structure HttpSensorCfg where
  task_id : String
  http_conn_id : String
  endpoint : String
  method : String
  mode : SensorMode
  poke_interval : Nat
  timeout : Nat
  pool : String
  deriving DecidableEq, Repr

/-- Line 162: `response_check=lambda response: response.status_code == 202`. -/
def trigger_response_check (status_code : Nat) : Bool := status_code == 202

/-- Python `str.upper()` on the ASCII action names (`action.upper()`,
line 199): uppercase each character. -/
def pyUpper (s : String) : String := String.mk (s.data.map Char.toUpper)

/-- Python dict union `a | b` (line 196–201): pairs of `b` replace
same-keyed pairs of `a`. -/
def dictUnion (a b : List (String × String)) : List (String × String) :=
  a.filter (fun kv => !(b.any (fun kv2 => kv2.1 == kv.1))) ++ b

/-- `_get_http_operator` (lines 146–164). -/
def _get_http_operator (task_id : String)
    (post_data : List (String × String)) : SimpleHttpOperatorCfg :=
  { task_id := task_id
    http_conn_id := "data_refresh"
    endpoint := "task"
    method := "POST"
    headers := [("Content-Type", "application/json")]
    data := post_data
    pool := DEFAULT_POOL_NAME }

/-- Modelled from the spec: `XCOM_PULL_TEMPLATE` comes from
`common.constants`, which is not among the sources. It renders the
Jinja expression through which the waiter's endpoint is the
`status_check` path the named trigger task returned (spec §3:
TriggerResult is "consumed by the matching poll loop"). Only its
dependence on the trigger task's id matters here. -/
def XCOM_PULL_TEMPLATE (task_id key : String) : String :=
  "\x7b\x7b ti.xcom_pull(task_ids=" ++ task_id ++ ", key=" ++ key ++ ") \x7d\x7d"

/-- `_get_http_sensor` (lines 166–185). Note: `mode="reschedule"`, and
no `pool` argument is passed, so the sensor runs in the default pool. -/
def _get_http_sensor (task_id endpoint : String)
    (data_refresh : DataRefresh) (poke_interval : Nat) : HttpSensorCfg :=
  { task_id := task_id
    http_conn_id := "data_refresh"
    endpoint := endpoint
    method := "GET"
    mode := SensorMode.reschedule
    poke_interval := poke_interval
    timeout := data_refresh.data_refresh_timeout
    pool := DEFAULT_POOL_NAME }

/-- A task of the built group. -/
inductive Task where
  | gate (cfg : SingleRunExternalDAGsSensorCfg)
  | trigger (cfg : SimpleHttpOperatorCfg)
  | waiter (cfg : HttpSensorCfg)
  deriving DecidableEq, Repr

/-- The `task_id` of a task. -/
def Task.taskId : Task → String
  | Task.gate cfg => cfg.task_id
  | Task.trigger cfg => cfg.task_id
  | Task.waiter cfg => cfg.task_id

/-- The built group: its tasks and its dependency edges
`(upstream, downstream)`. -/
structure TaskGroupResult where
  tasks : List Task
  edges : List (String × String)
  deriving DecidableEq, Repr

/-- `action_data_map` (lines 188–191), in dict insertion order. -/
def action_data_map (data_refresh : DataRefresh) :
    List (String × List (String × String)) :=
  [("ingest_upstream", []),
   ("point_alias", [("alias", data_refresh.media_type)])]

/-- `create_data_refresh_task_group` (lines 102–217).
`index_suffix` is the value of `str(uuid.uuid4())` minted once at line
144 (the draw from the UUID source, one per invocation);
`poke_interval` is the `DATA_REFRESH_POKE_INTERVAL` lookup of line 130.
Edges mirror `trigger >> waiter` within each action group and
`chain(*tasks)` across `wait_for_data_refresh` and the two groups (leaf
of each group to root of the next). -/
def create_data_refresh_task_group (data_refresh : DataRefresh)
    (external_dag_ids : List String) (poke_interval : Nat)
    (index_suffix : String) : TaskGroupResult :=
  let wait_for_data_refresh : SingleRunExternalDAGsSensorCfg :=
    { task_id := "wait_for_data_refresh"
      external_dag_ids := external_dag_ids
      check_existence := true
      poke_interval := poke_interval
      mode := SensorMode.reschedule
      pool := DATA_REFRESH_POOL }
  let groups := (action_data_map data_refresh).map (fun ap =>
    (_get_http_operator ("trigger_" ++ ap.1)
      (dictUnion ap.2
        [("model", data_refresh.media_type),
         ("action", pyUpper ap.1),
         ("index_suffix", index_suffix)]),
     _get_http_sensor ("wait_for_" ++ ap.1)
      (XCOM_PULL_TEMPLATE ("trigger_" ++ ap.1) "return_value")
      data_refresh poke_interval))
  { tasks := Task.gate wait_for_data_refresh ::
      groups.flatMap (fun tw => [Task.trigger tw.1, Task.waiter tw.2])
    edges := (groups.foldl (fun acc tw =>
        (tw.2.task_id,
         acc.2 ++ [(acc.1, tw.1.task_id), (tw.1.task_id, tw.2.task_id)]))
      ("wait_for_data_refresh", [])).2 }

/-- The tasks Airflow requires to have succeeded before it may start
`t`: the sources of the edges into `t`. -/
def upstreams (edges : List (String × String)) (t : String) : List String :=
  (edges.filter (fun e => e.2 == t)).map (fun e => e.1)

/-- The concrete task list built by one invocation. -/
theorem tasks_eq (dr : DataRefresh) (ids : List String) (pi : Nat)
    (sfx : String) :
    (create_data_refresh_task_group dr ids pi sfx).tasks =
      [Task.gate ⟨"wait_for_data_refresh", ids, true, pi,
          SensorMode.reschedule, "data_refresh"⟩,
       Task.trigger ⟨"trigger_ingest_upstream", "data_refresh", "task",
          "POST", [("Content-Type", "application/json")],
          [("model", dr.media_type), ("action", "INGEST_UPSTREAM"),
           ("index_suffix", sfx)], "default_pool"⟩,
       Task.waiter ⟨"wait_for_ingest_upstream", "data_refresh",
          XCOM_PULL_TEMPLATE "trigger_ingest_upstream" "return_value",
          "GET", SensorMode.reschedule, pi, dr.data_refresh_timeout,
          "default_pool"⟩,
       Task.trigger ⟨"trigger_point_alias", "data_refresh", "task",
          "POST", [("Content-Type", "application/json")],
          [("alias", dr.media_type), ("model", dr.media_type),
           ("action", "POINT_ALIAS"), ("index_suffix", sfx)],
          "default_pool"⟩,
       Task.waiter ⟨"wait_for_point_alias", "data_refresh",
          XCOM_PULL_TEMPLATE "trigger_point_alias" "return_value",
          "GET", SensorMode.reschedule, pi, dr.data_refresh_timeout,
          "default_pool"⟩] := rfl

/-- The concrete dependency edges built by one invocation. -/
theorem edges_eq (dr : DataRefresh) (ids : List String) (pi : Nat)
    (sfx : String) :
    (create_data_refresh_task_group dr ids pi sfx).edges =
      [("wait_for_data_refresh", "trigger_ingest_upstream"),
       ("trigger_ingest_upstream", "wait_for_ingest_upstream"),
       ("wait_for_ingest_upstream", "trigger_point_alias"),
       ("trigger_point_alias", "wait_for_point_alias")] := rfl

theorem trigger_mem_lookup_suffix {dr : DataRefresh} {ids : List String}
    {pi : Nat} {sfx : String} {cfg : SimpleHttpOperatorCfg}
    (h : Task.trigger cfg ∈ (create_data_refresh_task_group dr ids pi sfx).tasks) :
    cfg.data.lookup "index_suffix" = some sfx := by
  rw [tasks_eq] at h
  simp only [List.mem_cons, List.not_mem_nil, or_false] at h
  rcases h with h | h | h | h | h
  · exact Task.noConfusion h
  · injection h with h
    subst h
    rfl
  · exact Task.noConfusion h
  · injection h with h
    subst h
    rfl
  · exact Task.noConfusion h

/-- C4: every trigger call issued within one pipeline invocation carries
the identical correlation token: each trigger operator built by
`create_data_refresh_task_group` from the `index_suffix` minted for that
invocation posts exactly that token, and two invocations whose minted
UUIDs differ (the guarantee `uuid.uuid4()` provides) never share one. -/
theorem index_suffix_uniform_per_invocation
    (dr dr2 : DataRefresh) (ids ids2 : List String) (pi pi2 : Nat)
    (sfx sfx2 : String) (cfg cfg2 : SimpleHttpOperatorCfg)
    (h1 : Task.trigger cfg ∈ (create_data_refresh_task_group dr ids pi sfx).tasks)
    (h2 : Task.trigger cfg2 ∈
      (create_data_refresh_task_group dr2 ids2 pi2 sfx2).tasks)
    (hne : sfx ≠ sfx2) :
    cfg.data.lookup "index_suffix" = some sfx ∧
    cfg2.data.lookup "index_suffix" = some sfx2 ∧
    cfg.data.lookup "index_suffix" ≠ cfg2.data.lookup "index_suffix" := by
  have e1 := trigger_mem_lookup_suffix h1
  have e2 := trigger_mem_lookup_suffix h2
  refine ⟨e1, e2, ?_⟩
  rw [e1, e2]
  intro hc
  exact hne (Option.some.inj hc)

/-- C4, witness: the two triggers of an invocation minted with suffix
`"u-1"` both carry `"u-1"`, and a second invocation minted with `"u-2"`
carries a different token. -/
theorem index_suffix_uniform_per_invocation_witness :
    (SimpleHttpOperatorCfg.mk "trigger_ingest_upstream" "data_refresh"
        "task" "POST" [("Content-Type", "application/json")]
        [("model", "image"), ("action", "INGEST_UPSTREAM"),
         ("index_suffix", "u-1")] "default_pool").data.lookup
      "index_suffix" = some "u-1" ∧
    (SimpleHttpOperatorCfg.mk "trigger_point_alias" "data_refresh"
        "task" "POST" [("Content-Type", "application/json")]
        [("alias", "audio"), ("model", "audio"), ("action", "POINT_ALIAS"),
         ("index_suffix", "u-2")] "default_pool").data.lookup
      "index_suffix" = some "u-2" ∧
    (SimpleHttpOperatorCfg.mk "trigger_ingest_upstream" "data_refresh"
        "task" "POST" [("Content-Type", "application/json")]
        [("model", "image"), ("action", "INGEST_UPSTREAM"),
         ("index_suffix", "u-1")] "default_pool").data.lookup
        "index_suffix" ≠
      (SimpleHttpOperatorCfg.mk "trigger_point_alias" "data_refresh"
        "task" "POST" [("Content-Type", "application/json")]
        [("alias", "audio"), ("model", "audio"), ("action", "POINT_ALIAS"),
         ("index_suffix", "u-2")] "default_pool").data.lookup
        "index_suffix" :=
  index_suffix_uniform_per_invocation ⟨"image", 86400⟩ ⟨"audio", 86400⟩
    ["audio_data_refresh"] ["image_data_refresh"] 900 900 "u-1" "u-2" _ _
    (by rw [tasks_eq]; exact List.Mem.tail _ (List.Mem.head _))
    (by
      rw [tasks_eq]
      exact List.Mem.tail _ (List.Mem.tail _ (List.Mem.tail _ (List.Mem.head _))))
    (by decide)

/-- C5 evaluation: the gate sensor runs in the single-slot
`data_refresh` pool with `mode="reschedule"`, releasing its capacity
slot while suspended; but each action's polling sensor is also built
with `mode="reschedule"` and with no `pool` argument (default pool), so
it exits between pokes and holds no `data_refresh` capacity slot at all
during its wait — contradicting the module docstring (lines 36–39, the
completion wait "does not need to be able to suspend itself and free
the worker slot, because we want to lock the entire pool") and the
claimed asymmetry. -/
theorem polling_sensor_releases_slot
    (dr : DataRefresh) (ids : List String) (pi : Nat) (sfx : String)
    (cfgG : SingleRunExternalDAGsSensorCfg) (cfgW : HttpSensorCfg)
    (hG : Task.gate cfgG ∈ (create_data_refresh_task_group dr ids pi sfx).tasks)
    (hW : Task.waiter cfgW ∈
      (create_data_refresh_task_group dr ids pi sfx).tasks) :
    cfgG.mode = SensorMode.reschedule ∧ cfgG.pool = DATA_REFRESH_POOL ∧
    cfgG.mode.releasesSlotWhileSuspended = true ∧
    cfgW.mode = SensorMode.reschedule ∧
    cfgW.mode.releasesSlotWhileSuspended = true ∧
    cfgW.pool = DEFAULT_POOL_NAME ∧ cfgW.pool ≠ DATA_REFRESH_POOL := by
  rw [tasks_eq] at hG hW
  simp only [List.mem_cons, List.not_mem_nil, or_false] at hG hW
  have hG2 : cfgG.mode = SensorMode.reschedule ∧
      cfgG.pool = DATA_REFRESH_POOL := by
    rcases hG with h | h | h | h | h
    · injection h with h
      subst h
      exact ⟨rfl, rfl⟩
    all_goals exact Task.noConfusion h
  have hW2 : cfgW.mode = SensorMode.reschedule ∧
      cfgW.pool = DEFAULT_POOL_NAME := by
    rcases hW with h | h | h | h | h
    · exact Task.noConfusion h
    · exact Task.noConfusion h
    · injection h with h
      subst h
      exact ⟨rfl, rfl⟩
    · exact Task.noConfusion h
    · injection h with h
      subst h
      exact ⟨rfl, rfl⟩
  refine ⟨hG2.1, hG2.2, ?_, hW2.1, ?_, hW2.2, ?_⟩
  · rw [hG2.1]
    rfl
  · rw [hW2.1]
    rfl
  · rw [hW2.2]
    decide

/-- C5, witness: the concrete gate and ingest-upstream waiter of an
invocation. -/
theorem polling_sensor_releases_slot_witness :
    (SingleRunExternalDAGsSensorCfg.mk "wait_for_data_refresh"
        ["audio_data_refresh"] true 900 SensorMode.reschedule
        "data_refresh").mode = SensorMode.reschedule ∧
    (SingleRunExternalDAGsSensorCfg.mk "wait_for_data_refresh"
        ["audio_data_refresh"] true 900 SensorMode.reschedule
        "data_refresh").pool = DATA_REFRESH_POOL ∧
    (SingleRunExternalDAGsSensorCfg.mk "wait_for_data_refresh"
        ["audio_data_refresh"] true 900 SensorMode.reschedule
        "data_refresh").mode.releasesSlotWhileSuspended = true ∧
    (HttpSensorCfg.mk "wait_for_ingest_upstream" "data_refresh"
        (XCOM_PULL_TEMPLATE "trigger_ingest_upstream" "return_value")
        "GET" SensorMode.reschedule 900 86400 "default_pool").mode =
      SensorMode.reschedule ∧
    (HttpSensorCfg.mk "wait_for_ingest_upstream" "data_refresh"
        (XCOM_PULL_TEMPLATE "trigger_ingest_upstream" "return_value")
        "GET" SensorMode.reschedule 900 86400
        "default_pool").mode.releasesSlotWhileSuspended = true ∧
    (HttpSensorCfg.mk "wait_for_ingest_upstream" "data_refresh"
        (XCOM_PULL_TEMPLATE "trigger_ingest_upstream" "return_value")
        "GET" SensorMode.reschedule 900 86400 "default_pool").pool =
      DEFAULT_POOL_NAME ∧
    (HttpSensorCfg.mk "wait_for_ingest_upstream" "data_refresh"
        (XCOM_PULL_TEMPLATE "trigger_ingest_upstream" "return_value")
        "GET" SensorMode.reschedule 900 86400 "default_pool").pool ≠
      DATA_REFRESH_POOL :=
  polling_sensor_releases_slot ⟨"image", 86400⟩ ["audio_data_refresh"]
    900 "u-1" _ _ (by rw [tasks_eq]; exact List.Mem.head _)
    (by rw [tasks_eq]; exact List.Mem.tail _ (List.Mem.tail _ (List.Mem.head _)))

/-! ### Airflow sensor execution (the poke loop)

`BaseSensorOperator.execute` pokes the check; while it returns false it
compares the elapsed time against `timeout` (raising
`AirflowSensorTimeout`, which fails the task, once elapsed > timeout)
and otherwise waits `poke_interval` before poking again; an exception
raised by the check also fails the task. Idealizing pokes as
instantaneous, poke `k` happens at elapsed time `k * poke_interval`, so
the comparison after the `k`-th unsuccessful poke is
`k * poke_interval > timeout`. The loop is embedded with explicit fuel;
`sensorRun` supplies fuel `timeout / poke_interval + 2`, which the
lemmas below show is never exhausted when `poke_interval > 0`. -/

/-- Outcome of one sensor task execution, recording the index of the
deciding poke. -/
inductive SensorResult where
  | success (pokes : Nat)
  | failedError (e : CheckError) (pokes : Nat)
  | timedOut (pokes : Nat)
  deriving DecidableEq, Repr

/-- Did the sensor task complete successfully? -/
def SensorResult.isSuccess : SensorResult → Bool
  | SensorResult.success _ => true
  | _ => false

/-- Airflow marks the task instance failed when the sensor run raised
(`AirflowSensorTimeout` on timeout, or the check's own exception). -/
def SensorResult.taskFailed : SensorResult → Bool
  | SensorResult.success _ => false
  | _ => true

/-- The poke loop from poke index `k` on, with the given fuel, poking
`response_check_wait_for_completion` against the `k`-th poll response. -/
def sensorRunFrom (cfg : HttpSensorCfg) (bodies : Nat → PollBody) :
    Nat → Nat → SensorResult
  | 0, k => SensorResult.timedOut k
  | fuel+1, k =>
    match response_check_wait_for_completion (bodies k) with
    | Except.ok true => SensorResult.success k
    | Except.error e => SensorResult.failedError e k
    | Except.ok false =>
      if k * cfg.poke_interval > cfg.timeout then SensorResult.timedOut k
      else sensorRunFrom cfg bodies fuel (k+1)

/-- One full sensor task execution over a stream of poll responses. -/
def sensorRun (cfg : HttpSensorCfg) (bodies : Nat → PollBody) : SensorResult :=
  sensorRunFrom cfg bodies (cfg.timeout / cfg.poke_interval + 2) 0

theorem sensorRunFrom_success_check {cfg : HttpSensorCfg}
    {bodies : Nat → PollBody} :
    ∀ {fuel k m : Nat}, sensorRunFrom cfg bodies fuel k = SensorResult.success m →
      response_check_wait_for_completion (bodies m) = Except.ok true := by
  intro fuel
  induction fuel with
  | zero => intro k m h; exact SensorResult.noConfusion h
  | succ fuel ih =>
    intro k m h
    rw [sensorRunFrom] at h
    cases hc : response_check_wait_for_completion (bodies k) with
    | ok b =>
      cases b with
      | true =>
        rw [hc] at h
        injection h with h
        subst h
        exact hc
      | false =>
        rw [hc] at h
        by_cases ht : k * cfg.poke_interval > cfg.timeout
        · rw [if_pos ht] at h
          exact SensorResult.noConfusion h
        · rw [if_neg ht] at h
          exact ih h
    | error e =>
      rw [hc] at h
      exact SensorResult.noConfusion h

theorem sensorRun_success_check {cfg : HttpSensorCfg}
    {bodies : Nat → PollBody} {m : Nat}
    (h : sensorRun cfg bodies = SensorResult.success m) :
    response_check_wait_for_completion (bodies m) = Except.ok true :=
  sensorRunFrom_success_check h

theorem isSuccess_iff (r : SensorResult) :
    r.isSuccess = true ↔ ∃ k, r = SensorResult.success k := by
  cases r with
  | success k => exact ⟨fun _ => ⟨k, rfl⟩, fun _ => rfl⟩
  | failedError e k =>
    exact ⟨fun h => Bool.noConfusion h, fun ⟨k2, h⟩ => SensorResult.noConfusion h⟩
  | timedOut k =>
    exact ⟨fun h => Bool.noConfusion h, fun ⟨k2, h⟩ => SensorResult.noConfusion h⟩

theorem sensorRunFrom_all_running {cfg : HttpSensorCfg}
    {bodies : Nat → PollBody} (hpi : 0 < cfg.poke_interval)
    (hall : ∀ j, response_check_wait_for_completion (bodies j) =
      Except.ok false) :
    ∀ fuel k, k + fuel = cfg.timeout / cfg.poke_interval + 2 →
      k ≤ cfg.timeout / cfg.poke_interval + 1 →
      sensorRunFrom cfg bodies fuel k =
        SensorResult.timedOut (cfg.timeout / cfg.poke_interval + 1) := by
  intro fuel
  induction fuel with
  | zero =>
    intro k hsum hle
    omega
  | succ fuel ih =>
    intro k hsum hle
    rw [sensorRunFrom, hall k]
    by_cases ht : k * cfg.poke_interval > cfg.timeout
    · rw [if_pos ht]
      have h1 : cfg.timeout / cfg.poke_interval < k :=
        (Nat.div_lt_iff_lt_mul hpi).mpr ht
      have : k = cfg.timeout / cfg.poke_interval + 1 := by omega
      rw [this]
    · rw [if_neg ht]
      have h2 : k ≤ cfg.timeout / cfg.poke_interval :=
        (Nat.le_div_iff_mul_le hpi).mpr (Nat.not_lt.mp ht)
      exact ih (k + 1) (by omega) (by omega)

theorem sensorRun_all_running {cfg : HttpSensorCfg}
    {bodies : Nat → PollBody} (hpi : 0 < cfg.poke_interval)
    (hall : ∀ j, response_check_wait_for_completion (bodies j) =
      Except.ok false) :
    sensorRun cfg bodies =
      SensorResult.timedOut (cfg.timeout / cfg.poke_interval + 1) :=
  sensorRunFrom_all_running hpi hall _ 0 (Nat.zero_add _) (Nat.zero_le _)

/-- C8: each polling sensor the factory builds carries the pipeline's
overall timeout (`data_refresh.data_refresh_timeout`, line 184). When
the remote job stays active (every poll reports `active: true`), the
sensor raises `AirflowSensorTimeout` at the first poke whose elapsed
time exceeds that timeout, and the task — hence the pipeline instance —
is Failed rather than left Polling. -/
theorem overall_timeout_fails_polling
    (dr : DataRefresh) (ids : List String) (pi : Nat) (sfx : String)
    (cfgW : HttpSensorCfg)
    (hW : Task.waiter cfgW ∈ (create_data_refresh_task_group dr ids pi sfx).tasks)
    (bodies : Nat → PollBody) (hpi : 0 < pi)
    (hall : ∀ j, (bodies j).active = some true) :
    cfgW.timeout = dr.data_refresh_timeout ∧
    cfgW.poke_interval = pi ∧
    sensorRun cfgW bodies =
      SensorResult.timedOut (cfgW.timeout / cfgW.poke_interval + 1) ∧
    (cfgW.timeout / cfgW.poke_interval + 1) * cfgW.poke_interval >
      cfgW.timeout ∧
    (sensorRun cfgW bodies).taskFailed = true := by
  have hok : ∀ j, response_check_wait_for_completion (bodies j) =
      Except.ok false := by
    intro j
    have h := hall j
    unfold response_check_wait_for_completion getKey
    rw [h]
    rfl
  have hcfg : cfgW.timeout = dr.data_refresh_timeout ∧
      cfgW.poke_interval = pi := by
    rw [tasks_eq] at hW
    simp only [List.mem_cons, List.not_mem_nil, or_false] at hW
    rcases hW with h | h | h | h | h
    · exact Task.noConfusion h
    · exact Task.noConfusion h
    · injection h with h
      subst h
      exact ⟨rfl, rfl⟩
    · exact Task.noConfusion h
    · injection h with h
      subst h
      exact ⟨rfl, rfl⟩
  have hpi2 : 0 < cfgW.poke_interval := hcfg.2 ▸ hpi
  have hrun := sensorRun_all_running hpi2 hok
  refine ⟨hcfg.1, hcfg.2, hrun, ?_, by rw [hrun]; rfl⟩
  exact (Nat.div_lt_iff_lt_mul hpi2).mp (Nat.lt_succ_self _)

/-- C8, witness: a waiter with timeout 10 and poke interval 4 against a
remote job that stays active times out at poke 3 (elapsed 12 > 10) and
the task is failed. -/
theorem overall_timeout_fails_polling_witness :
    (HttpSensorCfg.mk "wait_for_ingest_upstream" "data_refresh"
        (XCOM_PULL_TEMPLATE "trigger_ingest_upstream" "return_value")
        "GET" SensorMode.reschedule 4 10 "default_pool").timeout = 10 ∧
    (HttpSensorCfg.mk "wait_for_ingest_upstream" "data_refresh"
        (XCOM_PULL_TEMPLATE "trigger_ingest_upstream" "return_value")
        "GET" SensorMode.reschedule 4 10 "default_pool").poke_interval = 4 ∧
    sensorRun (HttpSensorCfg.mk "wait_for_ingest_upstream" "data_refresh"
        (XCOM_PULL_TEMPLATE "trigger_ingest_upstream" "return_value")
        "GET" SensorMode.reschedule 4 10 "default_pool")
      (fun _ => ⟨some true, some false, some 40⟩) =
      SensorResult.timedOut (10 / 4 + 1) ∧
    (10 / 4 + 1) * 4 > 10 ∧
    (sensorRun (HttpSensorCfg.mk "wait_for_ingest_upstream" "data_refresh"
        (XCOM_PULL_TEMPLATE "trigger_ingest_upstream" "return_value")
        "GET" SensorMode.reschedule 4 10 "default_pool")
      (fun _ => ⟨some true, some false, some 40⟩)).taskFailed = true := by
  have h := overall_timeout_fails_polling ⟨"image", 10⟩ ["audio_data_refresh"]
    4 "u-1" _
    (by rw [tasks_eq]; exact List.Mem.tail _ (List.Mem.tail _ (List.Mem.head _)))
    (fun _ => ⟨some true, some false, some 40⟩) (by decide) (fun j => rfl)
  exact h

/-! ### Scheduler trace semantics

Airflow runs the built graph under the default `all_success` trigger
rule: a task instance may start only after every upstream task has
finished successfully. A run is modelled as a list of events (task
started / task finished with a success flag), valid when it respects
the dependency edges and when success events of trigger/waiter tasks are
consistent with the embedded operator semantics: a waiter finishes
successfully only if its sensor run over its poll-response stream
succeeded, and a trigger finishes successfully only if
`trigger_response_check` accepted the HTTP status of its trigger call
(`SimpleHttpOperator` raises `AirflowException` otherwise). -/

/-- A trace event kind. -/
inductive EvKind where
  | started
  | finished (ok : Bool)
  deriving DecidableEq, Repr

/-- A trace event: the task id it concerns and what happened. -/
structure Ev where
  tid : String
  kind : EvKind
  deriving DecidableEq, Repr

/-- Does the trace contain a successful-finish event for `tid`? -/
def finishedOk (tr : List Ev) (tid : String) : Bool :=
  tr.any (fun e => decide (e = ⟨tid, EvKind.finished true⟩))

/-- Operator-semantics consistency of one task's success events (see
section comment). -/
def taskHonest (pollEnv : String → Nat → PollBody) (statusEnv : String → Nat)
    (tr : List Ev) : Task → Bool
  | Task.gate _ => true
  | Task.trigger cfg =>
      !(finishedOk tr cfg.task_id) || trigger_response_check (statusEnv cfg.task_id)
  | Task.waiter cfg =>
      !(finishedOk tr cfg.task_id) ||
        (sensorRun cfg (pollEnv cfg.task_id)).isSuccess

/-- A valid scheduler run of the built group: dependency-respecting and
operator-consistent. `pollEnv` gives each waiter task its stream of
poll-response bodies; `statusEnv` gives each trigger task the HTTP
status its trigger call returned. -/
def validTrace (g : TaskGroupResult) (pollEnv : String → Nat → PollBody)
    (statusEnv : String → Nat) (tr : List Ev) : Prop :=
  (∀ i : Fin tr.length, (tr.get i).kind = EvKind.started →
    ∀ u ∈ upstreams g.edges (tr.get i).tid,
      ∃ j : Fin tr.length, j.val < i.val ∧
        tr.get j = ⟨u, EvKind.finished true⟩) ∧
  (∀ t ∈ g.tasks, taskHonest pollEnv statusEnv tr t = true)

theorem finishedOk_of_get {tr : List Ev} {tid : String} {j : Fin tr.length}
    (h : tr.get j = ⟨tid, EvKind.finished true⟩) :
    finishedOk tr tid = true := by
  unfold finishedOk
  rw [List.any_eq_true]
  exact ⟨tr.get j, List.get_mem tr j.val j.isLt, by rw [h]; exact decide_eq_true rfl⟩

/-- C2: in every valid scheduler run of the pipeline built with the
configured action order `[ingest_upstream, point_alias]`, the trigger of
`point_alias` is never started before the waiter of `ingest_upstream`
has finished successfully — which requires that waiter's poll loop to
have produced Succeeded. The first two conjuncts exhibit the general
chain: each action's trigger depends on the previous waiter (and the
first on the gate). -/
theorem actions_strictly_sequential
    (dr : DataRefresh) (ids : List String) (pi : Nat) (sfx : String)
    (pollEnv : String → Nat → PollBody) (statusEnv : String → Nat)
    (tr : List Ev)
    (hv : validTrace (create_data_refresh_task_group dr ids pi sfx)
      pollEnv statusEnv tr)
    (i : Fin tr.length)
    (hi : tr.get i = ⟨"trigger_point_alias", EvKind.started⟩) :
    upstreams (create_data_refresh_task_group dr ids pi sfx).edges
        "trigger_point_alias" = ["wait_for_ingest_upstream"] ∧
    upstreams (create_data_refresh_task_group dr ids pi sfx).edges
        "trigger_ingest_upstream" = ["wait_for_data_refresh"] ∧
    ∃ j : Fin tr.length, j.val < i.val ∧
      tr.get j = ⟨"wait_for_ingest_upstream", EvKind.finished true⟩ ∧
      ∃ k, sensorRun (_get_http_sensor "wait_for_ingest_upstream"
            (XCOM_PULL_TEMPLATE "trigger_ingest_upstream" "return_value")
            dr pi) (pollEnv "wait_for_ingest_upstream") =
          SensorResult.success k ∧
        pollOutcome (pollEnv "wait_for_ingest_upstream" k) =
          PollOutcome.Succeeded := by
  have hup : upstreams (create_data_refresh_task_group dr ids pi sfx).edges
      "trigger_point_alias" = ["wait_for_ingest_upstream"] := by
    rw [edges_eq]
    rfl
  have hup2 : upstreams (create_data_refresh_task_group dr ids pi sfx).edges
      "trigger_ingest_upstream" = ["wait_for_data_refresh"] := by
    rw [edges_eq]
    rfl
  refine ⟨hup, hup2, ?_⟩
  have hkind : (tr.get i).kind = EvKind.started := by rw [hi]
  have htid : (tr.get i).tid = "trigger_point_alias" := by rw [hi]
  obtain ⟨j, hji, hj⟩ := hv.1 i hkind "wait_for_ingest_upstream"
    (by rw [htid, hup]; exact List.Mem.head _)
  have hmem : Task.waiter (_get_http_sensor "wait_for_ingest_upstream"
      (XCOM_PULL_TEMPLATE "trigger_ingest_upstream" "return_value") dr pi)
      ∈ (create_data_refresh_task_group dr ids pi sfx).tasks := by
    rw [tasks_eq]
    exact List.Mem.tail _ (List.Mem.tail _ (List.Mem.head _))
  have hhon := hv.2 _ hmem
  have hfin : finishedOk tr "wait_for_ingest_upstream" = true :=
    finishedOk_of_get hj
  simp only [taskHonest, _get_http_sensor, hfin, Bool.not_true,
    Bool.false_or] at hhon
  obtain ⟨k, hk⟩ := (isSuccess_iff _).mp hhon
  have hcheck := sensorRun_success_check hk
  refine ⟨j, hji, hj, k, hk, ?_⟩
  unfold pollOutcome
  rw [hcheck]

/-- C2, witness: a concrete valid run — gate, then trigger and waiter
of `ingest_upstream`, each successful, then `trigger_point_alias`
starts at position 6, after the ingest waiter succeeded at position 5
with its first poll reporting completion. -/
theorem actions_strictly_sequential_witness :
    upstreams (create_data_refresh_task_group ⟨"image", 10⟩
        ["audio_data_refresh"] 5 "u-1").edges "trigger_point_alias" =
      ["wait_for_ingest_upstream"] ∧
    upstreams (create_data_refresh_task_group ⟨"image", 10⟩
        ["audio_data_refresh"] 5 "u-1").edges "trigger_ingest_upstream" =
      ["wait_for_data_refresh"] ∧
    ∃ j : Fin ([⟨"wait_for_data_refresh", EvKind.started⟩,
        ⟨"wait_for_data_refresh", EvKind.finished true⟩,
        ⟨"trigger_ingest_upstream", EvKind.started⟩,
        ⟨"trigger_ingest_upstream", EvKind.finished true⟩,
        ⟨"wait_for_ingest_upstream", EvKind.started⟩,
        ⟨"wait_for_ingest_upstream", EvKind.finished true⟩,
        ⟨"trigger_point_alias", EvKind.started⟩] : List Ev).length,
      j.val < 6 ∧
      ([⟨"wait_for_data_refresh", EvKind.started⟩,
        ⟨"wait_for_data_refresh", EvKind.finished true⟩,
        ⟨"trigger_ingest_upstream", EvKind.started⟩,
        ⟨"trigger_ingest_upstream", EvKind.finished true⟩,
        ⟨"wait_for_ingest_upstream", EvKind.started⟩,
        ⟨"wait_for_ingest_upstream", EvKind.finished true⟩,
        ⟨"trigger_point_alias", EvKind.started⟩] : List Ev).get j =
        ⟨"wait_for_ingest_upstream", EvKind.finished true⟩ ∧
      ∃ k, sensorRun (_get_http_sensor "wait_for_ingest_upstream"
            (XCOM_PULL_TEMPLATE "trigger_ingest_upstream" "return_value")
            ⟨"image", 10⟩ 5)
          (fun _ => ⟨some false, some false, some 100⟩) =
          SensorResult.success k ∧
        pollOutcome ((fun (_ : Nat) =>
            (⟨some false, some false, some 100⟩ : PollBody)) k) =
          PollOutcome.Succeeded :=
  actions_strictly_sequential ⟨"image", 10⟩ ["audio_data_refresh"] 5 "u-1"
    (fun _ _ => ⟨some false, some false, some 100⟩) (fun _ => 202)
    [⟨"wait_for_data_refresh", EvKind.started⟩,
     ⟨"wait_for_data_refresh", EvKind.finished true⟩,
     ⟨"trigger_ingest_upstream", EvKind.started⟩,
     ⟨"trigger_ingest_upstream", EvKind.finished true⟩,
     ⟨"wait_for_ingest_upstream", EvKind.started⟩,
     ⟨"wait_for_ingest_upstream", EvKind.finished true⟩,
     ⟨"trigger_point_alias", EvKind.started⟩]
    (by constructor
        · decide
        · decide)
    ⟨6, by decide⟩ rfl

/-- C6: a trigger call succeeds iff the HTTP response status is 202:
`trigger_response_check` accepts exactly 202 (in particular 500 is
rejected). In every valid run whose `trigger_ingest_upstream` call
returned a non-202 status, that trigger task never finishes
successfully — `SimpleHttpOperator` raises, a hard failure for the
action with no retry issued at this layer, failing the pipeline run —
and the action's waiter never starts, so no poll call for that action
is ever issued. -/
theorem trigger_rejected_no_poll
    (dr : DataRefresh) (ids : List String) (pi : Nat) (sfx : String)
    (pollEnv : String → Nat → PollBody) (statusEnv : String → Nat)
    (tr : List Ev)
    (hv : validTrace (create_data_refresh_task_group dr ids pi sfx)
      pollEnv statusEnv tr)
    (hbad : statusEnv "trigger_ingest_upstream" ≠ 202) :
    (∀ s, trigger_response_check s = true ↔ s = 202) ∧
    trigger_response_check 500 = false ∧
    (∀ i : Fin tr.length,
      tr.get i ≠ ⟨"trigger_ingest_upstream", EvKind.finished true⟩) ∧
    (∀ i : Fin tr.length,
      tr.get i ≠ ⟨"wait_for_ingest_upstream", EvKind.started⟩) := by
  have hiff : ∀ s, trigger_response_check s = true ↔ s = 202 := by
    intro s
    simp [trigger_response_check]
  have hnofin : ∀ i : Fin tr.length,
      tr.get i ≠ ⟨"trigger_ingest_upstream", EvKind.finished true⟩ := by
    intro i hq
    have hmem : Task.trigger ⟨"trigger_ingest_upstream", "data_refresh",
        "task", "POST", [("Content-Type", "application/json")],
        [("model", dr.media_type), ("action", "INGEST_UPSTREAM"),
         ("index_suffix", sfx)], "default_pool"⟩
        ∈ (create_data_refresh_task_group dr ids pi sfx).tasks := by
      rw [tasks_eq]
      exact List.Mem.tail _ (List.Mem.head _)
    have hhon := hv.2 _ hmem
    have hfin := finishedOk_of_get hq
    simp only [taskHonest, hfin, Bool.not_true, Bool.false_or] at hhon
    exact hbad ((hiff _).mp hhon)
  refine ⟨hiff, rfl, hnofin, ?_⟩
  intro i hq
  have hkind : (tr.get i).kind = EvKind.started := by rw [hq]
  have htid : (tr.get i).tid = "wait_for_ingest_upstream" := by rw [hq]
  have hup : upstreams (create_data_refresh_task_group dr ids pi sfx).edges
      "wait_for_ingest_upstream" = ["trigger_ingest_upstream"] := by
    rw [edges_eq]
    rfl
  obtain ⟨j, hji, hj⟩ := hv.1 i hkind "trigger_ingest_upstream"
    (by rw [htid, hup]; exact List.Mem.head _)
  exact hnofin j hj

/-- C6, witness: a run in which the trigger call returned 500 — the
gate succeeds, `trigger_ingest_upstream` starts and finishes failed,
and nothing else ever runs. -/
theorem trigger_rejected_no_poll_witness :
    (∀ s, trigger_response_check s = true ↔ s = 202) ∧
    trigger_response_check 500 = false ∧
    (∀ i : Fin ([⟨"wait_for_data_refresh", EvKind.started⟩,
        ⟨"wait_for_data_refresh", EvKind.finished true⟩,
        ⟨"trigger_ingest_upstream", EvKind.started⟩,
        ⟨"trigger_ingest_upstream", EvKind.finished false⟩] : List Ev).length,
      ([⟨"wait_for_data_refresh", EvKind.started⟩,
        ⟨"wait_for_data_refresh", EvKind.finished true⟩,
        ⟨"trigger_ingest_upstream", EvKind.started⟩,
        ⟨"trigger_ingest_upstream", EvKind.finished false⟩] : List Ev).get i ≠
        ⟨"trigger_ingest_upstream", EvKind.finished true⟩) ∧
    (∀ i : Fin ([⟨"wait_for_data_refresh", EvKind.started⟩,
        ⟨"wait_for_data_refresh", EvKind.finished true⟩,
        ⟨"trigger_ingest_upstream", EvKind.started⟩,
        ⟨"trigger_ingest_upstream", EvKind.finished false⟩] : List Ev).length,
      ([⟨"wait_for_data_refresh", EvKind.started⟩,
        ⟨"wait_for_data_refresh", EvKind.finished true⟩,
        ⟨"trigger_ingest_upstream", EvKind.started⟩,
        ⟨"trigger_ingest_upstream", EvKind.finished false⟩] : List Ev).get i ≠
        ⟨"wait_for_ingest_upstream", EvKind.started⟩) :=
  trigger_rejected_no_poll ⟨"image", 10⟩ ["audio_data_refresh"] 5 "u-1"
    (fun _ _ => ⟨some false, some false, some 100⟩) (fun _ => 500)
    [⟨"wait_for_data_refresh", EvKind.started⟩,
     ⟨"wait_for_data_refresh", EvKind.finished true⟩,
     ⟨"trigger_ingest_upstream", EvKind.started⟩,
     ⟨"trigger_ingest_upstream", EvKind.finished false⟩]
    (by constructor
        · decide
        · decide)
    (by decide)

/-! ### The exclusion gate (spec-modelled)

`SingleRunExternalDAGsSensor` is imported from
`common.sensors.single_run_external_dags_sensor`, which is not among
the sources; its poke predicate is modelled from the module docstring
(lines 24–29) and spec §4.1: the sensor waits until none of the
`external_dag_ids` is "running", where a DAG counts as running iff it
is itself in the RUNNING state and its own `wait_for_data_refresh` step
has completed successfully; with `check_existence=True`, an id that was
never scheduled simply contributes no running run. -/

/-- Modelled from the spec: the observable state of one sibling DAG —
whether a run of it is currently executing, and whether that run's own
gate step has already completed successfully. `none` in the
observation map means the id was never scheduled. -/
structure SiblingState where
  running : Bool
  passedGate : Bool
  deriving DecidableEq, Repr

/-- Modelled from the spec: a sibling counts as active iff it is itself
running and has itself already passed its own gate check; an
unscheduled sibling is vacuously inactive, not an error. -/
def siblingActive (observe : String → Option SiblingState) (id : String) :
    Bool :=
  match observe id with
  | none => false
  | some s => s.running && s.passedGate

/-- Modelled from the spec: one poke of the gate sensor — it completes
(returns true) iff no external dag id is presently active. -/
def gatePoke (observe : String → Option SiblingState)
    (ids : List String) : Bool :=
  ids.all (fun id => !siblingActive observe id)

/-- Modelled from the spec: `awaitClear` over a time-indexed
observation of sibling states returns at time `t` iff the poke at `t`
is the first successful one. -/
def awaitClearReturnsAt (observe : Nat → String → Option SiblingState)
    (ids : List String) (t : Nat) : Prop :=
  gatePoke (observe t) ids = true ∧ ∀ s < t, gatePoke (observe s) ids = false

/-- C3: the gate does not return while any sibling workflow is active —
at any time at which some sibling id is active, the poke fails, so
`awaitClear` does not return then; a sibling is active iff it is itself
running and has itself already passed its own gate check, so a merely
queued sibling (gate not yet passed) does not block, and a sibling id
that was never scheduled is vacuously inactive rather than an error. -/
theorem gate_waits_while_sibling_active
    (observe : Nat → String → Option SiblingState) (ids : List String)
    (t : Nat) (id : String)
    (hmem : id ∈ ids) (hact : siblingActive (observe t) id = true) :
    gatePoke (observe t) ids = false ∧
    ¬ awaitClearReturnsAt observe ids t ∧
    (∀ (obs : String → Option SiblingState) (id2 : String),
      obs id2 = none → siblingActive obs id2 = false) ∧
    (∀ (obs : String → Option SiblingState) (id2 : String) (r : Bool),
      obs id2 = some ⟨r, false⟩ → siblingActive obs id2 = false) := by
  have hpoke : gatePoke (observe t) ids = false := by
    cases hp : gatePoke (observe t) ids with
    | false => rfl
    | true =>
      rw [gatePoke, List.all_eq_true] at hp
      have := hp id hmem
      rw [hact] at this
      exact Bool.noConfusion this
  refine ⟨hpoke, fun hc => ?_, fun obs id2 h => ?_, fun obs id2 r h => ?_⟩
  · rw [hc.1] at hpoke
    exact Bool.noConfusion hpoke
  · rw [siblingActive, h]
  · rw [siblingActive, h]
    exact Bool.and_false r

/-- C3, witness: with sibling `"audio_data_refresh"` running and past
its own gate at time 0, the image DAG's gate cannot return at time 0;
an unscheduled id and a queued-but-not-past-gate sibling do not
block. -/
theorem gate_waits_while_sibling_active_witness :
    gatePoke ((fun _ _ => some ⟨true, true⟩ :
        Nat → String → Option SiblingState) 0) ["audio_data_refresh"] =
      false ∧
    ¬ awaitClearReturnsAt (fun _ _ => some ⟨true, true⟩)
      ["audio_data_refresh"] 0 ∧
    (∀ (obs : String → Option SiblingState) (id2 : String),
      obs id2 = none → siblingActive obs id2 = false) ∧
    (∀ (obs : String → Option SiblingState) (id2 : String) (r : Bool),
      obs id2 = some ⟨r, false⟩ → siblingActive obs id2 = false) :=
  gate_waits_while_sibling_active (fun _ _ => some ⟨true, true⟩)
    ["audio_data_refresh"] 0 "audio_data_refresh" (List.Mem.head _) rfl

end DataRefreshFactory
